import Mathlib

/-!
Verification of the rrweb recording engine (Appsurify fork).

Shallow embedding of the recorder's core data structures and algorithms:
  - the JS `Map` discipline (insertion order, in-place replacement on `set`),
  - the node `Mirror` (rrweb-snapshot),
  - `maskInputValue` (input masking policy),
  - `isElementInteractive` and the patched-`addEventListener` registry,
  - `computeVisibility` and the `VisibilityManager` flush pipeline,
  - the emit pipeline with the three-predicate checkout policy,
  - the `record()` facade: custom-event queue, stop handle, manual snapshots.

Numbers are modelled with `ℚ` (JS doubles restricted to exact arithmetic on
the rationals the code manipulates); `Math.round` is modelled as
`⌊x + 1/2⌋`, which agrees with JS on the non-negative values that occur here.
Browser measurements (`getBoundingClientRect`, `getComputedStyle`,
`innerWidth`/`innerHeight`, `performance.now`, timer handles) are inputs of
the model, supplied by an environment structure.
-/

set_option linter.unusedVariables false

namespace Rrweb

/-! ## JS `Map` model

A JS `Map` iterates in insertion order; `set` on an existing key replaces the
value in place (keeping the key's position); `delete` removes the entry.  We
model it by an association list. -/

namespace JsMap

/-- Lookup, as JS `Map.get` (first — and, with unique keys, only — match). -/
def get? {α β : Type} [DecidableEq α] (m : List (α × β)) (k : α) : Option β :=
  (m.find? (fun p => p.1 = k)).map (·.2)

/-- JS `Map.set`: replace in place when the key exists, else append. -/
def set {α β : Type} [DecidableEq α] : List (α × β) → α → β → List (α × β)
  | [], k, v => [(k, v)]
  | (k', v') :: rest, k, v =>
    if k' = k then (k, v) :: rest else (k', v') :: set rest k v

/-- JS `Map.delete`. -/
def del {α β : Type} [DecidableEq α] (m : List (α × β)) (k : α) : List (α × β) :=
  m.filter (fun p => ¬ p.1 = k)

/-- JS `Map.size`. -/
def size {α β : Type} (m : List (α × β)) : Nat := m.length

/-- JS `Array.from(map.values())` (insertion order). -/
def values {α β : Type} (m : List (α × β)) : List β := m.map (·.2)

/-- JS `Array.from(map.keys())` (insertion order). -/
def keys {α β : Type} (m : List (α × β)) : List α := m.map (·.1)

end JsMap

/-- JS `String.prototype.toLowerCase` (`toLowerCase` helper of
rrweb-snapshot/src/utils.ts), as a character-wise lowering — on the ASCII
tag, type, event and attribute names involved this agrees with JS. -/
def toLowerCase (s : String) : String := ⟨s.data.map Char.toLower⟩

/-! ## Mirror (rrweb-snapshot/src/utils.ts, `class Mirror`)

Live DOM nodes are modelled as finite trees carrying an identity key (the
object identity the `WeakMap` side is keyed on). -/

/-- A live DOM node: identity key plus child list (`Node.childNodes`). -/
inductive DNode where
  | mk (key : Nat) (children : List DNode)

/-- Identity key of a node. -/
def DNode.key : DNode → Nat
  | .mk k _ => k

/-- Child list of a node. -/
def DNode.children : DNode → List DNode
  | .mk _ cs => cs

/-- A serialized node as stored in the mirror's meta map: its stable id plus
an opaque payload standing for the remaining serialized fields. -/
structure SerializedNodeWithId where
  id : Int
  payload : Nat
deriving DecidableEq

/-- Mirror state: `idNodeMap : id → Node` (the node is represented by its
identity key) and `nodeMetaMap : Node → serializedNodeWithId` (a `WeakMap`,
keyed on node identity). -/
structure Mirror where
  idNodeMap : List (Int × Nat)
  nodeMetaMap : List (Nat × SerializedNodeWithId)
deriving DecidableEq

/-- `Mirror.getMeta(n)`: `nodeMetaMap.get(n) || null`. -/
def Mirror.getMeta (m : Mirror) (n : DNode) : Option SerializedNodeWithId :=
  JsMap.get? m.nodeMetaMap n.key

/-- `Mirror.getId(n)`: `-1` for `null`/`undefined`, else `getMeta(n)?.id ?? -1`. -/
def Mirror.getId (m : Mirror) (n : Option DNode) : Int :=
  match n with
  | none => -1
  | some n =>
    match (m.getMeta n).map (·.id) with
    | some id => id
    | none => -1

/-- `Mirror.getNode(id)`: `idNodeMap.get(id) || null` (the node's identity key). -/
def Mirror.getNode (m : Mirror) (id : Int) : Option Nat :=
  JsMap.get? m.idNodeMap id

/-- `Mirror.has(id)`. -/
def Mirror.has (m : Mirror) (id : Int) : Bool :=
  (JsMap.get? m.idNodeMap id).isSome

/-- `Mirror.hasNode(node)`. -/
def Mirror.hasNode (m : Mirror) (n : DNode) : Bool :=
  (JsMap.get? m.nodeMetaMap n.key).isSome

/-- `Mirror.add(n, meta)`. -/
def Mirror.add (m : Mirror) (n : DNode) (meta : SerializedNodeWithId) : Mirror :=
  { idNodeMap := JsMap.set m.idNodeMap meta.id n.key,
    nodeMetaMap := JsMap.set m.nodeMetaMap n.key meta }

/-- `Mirror.reset()`: both maps are replaced by fresh empty ones. -/
def Mirror.reset (_ : Mirror) : Mirror :=
  { idNodeMap := [], nodeMetaMap := [] }

mutual
/-- `Mirror.removeNodeFromMap(n)`: deletes `getId(n)` from `idNodeMap` and
recurses into `n.childNodes`; the `nodeMetaMap` side is not touched. -/
def Mirror.removeNodeFromMap (m : Mirror) : DNode → Mirror
  | .mk k cs =>
    Mirror.removeChildren
      { m with idNodeMap := JsMap.del m.idNodeMap (m.getId (some (.mk k cs))) } cs

/-- The `n.childNodes.forEach(child => this.removeNodeFromMap(child))` loop. -/
def Mirror.removeChildren (m : Mirror) : List DNode → Mirror
  | [] => m
  | c :: cs => Mirror.removeChildren (m.removeNodeFromMap c) cs
end

mutual
/-- A node together with all nodes reachable through `childNodes`. -/
def DNode.descendants : DNode → List DNode
  | .mk k cs => .mk k cs :: DNode.descendantsList cs

/-- Descendants of every node of a list. -/
def DNode.descendantsList : List DNode → List DNode
  | [] => []
  | c :: cs => c.descendants ++ DNode.descendantsList cs
end

/-! ## maskInputValue (rrweb-snapshot/src/utils.ts)

`maskInputOptions` is the set of tag/type keys whose entry is `true`.
`maskInputFn(text, element)` receives the element; elements are represented
by their identity key. -/

/-- The condition of `maskInputValue`'s `if`: the lowercased tag is a selected
key, or the type is present, non-empty (JS truthiness of
`type && toLowerCase(type)`) and its lowercase form is a selected key. -/
def maskPolicySelected (maskInputOptions : List String) (tagName : String)
    (type? : Option String) : Bool :=
  maskInputOptions.contains (toLowerCase tagName) ||
    (match type? with
     | none => false
     | some t => !(t = "") && maskInputOptions.contains (toLowerCase t))

/-- `maskInputValue`: `text = value || ''`; when the tag or type is selected,
apply `maskInputFn` if supplied, else `'*'.repeat(text.length)`; otherwise
return `text` unchanged. -/
def maskInputValue (maskInputOptions : List String) (tagName : String)
    (type? : Option String) (value? : Option String)
    (maskInputFn : Option (String → Nat → String)) (element : Nat) : String :=
  let text := value?.getD ""
  if maskPolicySelected maskInputOptions tagName type? then
    match maskInputFn with
    | some f => f text element
    | none => String.mk (List.replicate text.length '*')
  else
    text

/-! ## Interactivity classifier (rrweb-snapshot/src/utils.ts)

`interactiveElementsRegistry` is a `WeakSet<Element>`; we carry it as the
list of registered identity keys.  Elements are modelled with the fields the
classifier reads; `instanceof HTMLAnchorElement` / `HTMLButtonElement` is
decided by the tag, as in the DOM. -/

/-- The fixed interactive event set (`interactiveEvents`). -/
def interactiveEvents : List String :=
  ["change", "submit", "dragstart", "drop", "pointerdown", "pointerup",
   "input", "keydown", "keyup", "keypress", "mouseenter", "mouseleave",
   "mouseup", "mousedown", "click", "contextmenu", "dblclick", "focus",
   "blur", "touchstart", "touchmove", "touchend", "touchcancel"]

/-- The fixed interactive tag set (`interactiveTags`). -/
def interactiveTags : List String :=
  ["a", "button", "input", "select", "textarea", "label", "details",
   "summary", "dialog", "video", "audio"]

/-- Attributes that may carry inline handlers (`inlineEventAttributes`). -/
def inlineEventAttributes : List String :=
  ["onclick", "ondblclick", "onmousedown", "onmouseup", "onmouseover",
   "onmouseout", "onmousemove", "onfocus", "onblur", "onkeydown",
   "onkeypress", "onkeyup", "onchange", "oninput", "onsubmit", "onreset",
   "onselect", "oncontextmenu", "ontouchstart", "ontouchmove", "ontouchend",
   "ontouchcancel"]

/-- A DOM element as read by the classifier: identity key, tag name
(uppercase, as `Element.tagName` reports for HTML), attribute map, and the
`disabled` IDL attribute of button elements. -/
structure DomElement where
  key : Nat
  tagName : String
  attributes : List (String × String)
  disabled : Bool
deriving DecidableEq

/-- `Element.hasAttribute`. -/
def DomElement.hasAttribute (el : DomElement) (name : String) : Bool :=
  (el.attributes.find? (fun p => p.1 = name)).isSome

/-- `Element.getAttribute` (null for a missing attribute). -/
def DomElement.getAttribute (el : DomElement) (name : String) : Option String :=
  (el.attributes.find? (fun p => p.1 = name)).map (·.2)

/-- `el instanceof HTMLAnchorElement` (true exactly for `<a>`). -/
def isAnchorElement (el : DomElement) : Bool :=
  toLowerCase el.tagName = "a"

/-- `el instanceof HTMLButtonElement` (true exactly for `<button>`). -/
def isButtonElement (el : DomElement) : Bool :=
  toLowerCase el.tagName = "button"

/-- `hasEventListeners(n)`: membership in `interactiveElementsRegistry`. -/
def hasEventListeners (registry : List Nat) (el : DomElement) : Bool :=
  registry.contains el.key

/-- The patched `EventTarget.prototype.addEventListener`: after delegating to
the original, an `Element` target whose lowercased event type is in
`interactiveEvents` is added to the registry.  `isElem` is the
`this instanceof Element` test; WeakSet insertion is idempotent. -/
def patchedAddEventListener (registry : List Nat) (isElem : Bool)
    (elKey : Nat) (type : String) : List Nat :=
  if isElem && interactiveEvents.contains (toLowerCase type) then
    if registry.contains elKey then registry else registry ++ [elKey]
  else registry

/-- `inspectInlineEventHandlers` applied to one element: registered when any
inline `on*` attribute of the fixed list is present. -/
def inspectInlineEventHandlersOn (registry : List Nat) (el : DomElement) :
    List Nat :=
  if inlineEventAttributes.any (fun attr => el.hasAttribute attr) then
    if registry.contains el.key then registry else registry ++ [el.key]
  else registry

/-- `isElementInteractive` restricted to element nodes (the
`nodeType === ELEMENT_NODE` branch of the source). -/
def isElementInteractive (registry : List Nat) (el : DomElement) : Bool :=
  let tagName := toLowerCase el.tagName
  if interactiveTags.contains tagName then
    true
  else
    let hasTabIndex :=
      el.hasAttribute "tabindex" && !(el.getAttribute "tabindex" = some "-1")
    let hasRoleInteractive :=
      ["button", "link", "checkbox", "switch", "menuitem"].contains
        ((el.getAttribute "role").getD "")
    hasEventListeners registry el || hasTabIndex || hasRoleInteractive ||
      (isAnchorElement el && el.hasAttribute "href") ||
      (isButtonElement el && !el.disabled)

/-- The spec's wording of C6 (§4.3 of the spec), as a predicate on the same
model: tag in the fixed set, or a real `tabindex ≠ -1`, or an ARIA role in
the fixed set, or a non-disabled `<button>`, or an `<a href>`, or recorded in
the known-interactive registry. -/
def specInteractive (registry : List Nat) (el : DomElement) : Bool :=
  interactiveTags.contains (toLowerCase el.tagName) ||
    (el.hasAttribute "tabindex" && !(el.getAttribute "tabindex" = some "-1")) ||
    ["button", "link", "checkbox", "switch", "menuitem"].contains
      ((el.getAttribute "role").getD "") ||
    (isButtonElement el && !el.disabled) ||
    (isAnchorElement el && el.hasAttribute "href") ||
    registry.contains el.key

/-! ## Visibility evaluator
(rrweb/src/record/observers/visibility/visibility.ts)

Rects carry the six fields the code reads.  `new DOMRect(x, y, w, h)`
derives `right`/`bottom`; `getBoundingClientRect` results are supplied by
the environment.  `Math.round` is `⌊x + 1/2⌋` (exact on the non-negative
values occurring here). -/

/-- The `Rect` shape (`top/left/right/bottom/width/height`). -/
structure Rect where
  top : ℚ
  left : ℚ
  right : ℚ
  bottom : ℚ
  width : ℚ
  height : ℚ
deriving DecidableEq

/-- `new DOMRect(x, y, w, h)`. -/
def mkDOMRect (x y w h : ℚ) : Rect :=
  { top := y, left := x, right := x + w, bottom := y + h, width := w, height := h }

/-- `emptyRect()`. -/
def emptyRect : Rect :=
  { top := 0, left := 0, right := 0, bottom := 0, width := 0, height := 0 }

/-- JS `Math.round` on the values occurring here (non-negative): `⌊x + 1/2⌋`. -/
def jsRound (q : ℚ) : Int := ⌊q + 1 / 2⌋

/-- One component of a parsed `rootMargin` string: its numeric value and
whether the token ended in `%`.  The CSS lexical layer (`parseFloat`, with
`NaN`/`'0px'` collapsing to 0) is abstracted to the parsed value. -/
structure MarginVal where
  val : ℚ
  percent : Bool
deriving DecidableEq

/-- `getValue(val, size)` of `parseRootMargin`. -/
def marginGetValue (v : MarginVal) (size : ℚ) : ℚ :=
  if v.percent then v.val / 100 * size else v.val

/-- The `parts[i] || parts[j] || … || '0px'` fallback chain: first present
index, else the zero margin. -/
def marginPart (parts : List MarginVal) : List Nat → MarginVal
  | [] => { val := 0, percent := false }
  | i :: rest =>
    match parts.get? i with
    | some v => v
    | none => marginPart parts rest

/-- `parseRootMargin(marginStr)(rootRect)`: top/right/bottom/left in CSS
order with percent support, packed as a `DOMRect`-shaped record with
`width = height = 0`, exactly as the source returns. -/
def parseRootMargin (parts : List MarginVal) (rootRect : Rect) : Rect :=
  { top := marginGetValue (marginPart parts [0]) rootRect.height,
    right := marginGetValue (marginPart parts [1, 0]) rootRect.width,
    bottom := marginGetValue (marginPart parts [2, 0]) rootRect.height,
    left := marginGetValue (marginPart parts [3, 1, 0]) rootRect.width,
    width := 0, height := 0 }

/-- `expandRootRect(rect, marginFn)`. -/
def expandRootRect (rect : Rect) (margin : Rect) : Rect :=
  mkDOMRect (rect.left - margin.left) (rect.top - margin.top)
    (rect.width + margin.left + margin.right)
    (rect.height + margin.top + margin.bottom)

/-- `computeIntersectionRect(a, b)`. -/
def computeIntersectionRect (a b : Rect) : Rect :=
  let top := max a.top b.top
  let left := max a.left b.left
  let bottom := min a.bottom b.bottom
  let right := min a.right b.right
  { top := top, left := left, right := right, bottom := bottom,
    width := max 0 (right - left), height := max 0 (bottom - top) }

/-- `computeIntersectionRatio(elRect, intersectionRect)`. -/
def computeIntersectionRatio (elRect ir : Rect) : ℚ :=
  let elArea := elRect.width * elRect.height
  let intArea := ir.width * ir.height
  if elArea > 0 then intArea / elArea else 0

/-- Computed style as read by `isStyleVisible`: `display`, `visibility`, and
the value of `parseFloat(style.opacity || '1')`. -/
structure Style where
  display : String
  visibility : String
  opacity : ℚ
deriving DecidableEq

/-- `isStyleVisible(el)` on the element's computed style. -/
def isStyleVisible (st : Style) : Bool :=
  !(st.display = "none") && !(st.visibility = "hidden") && decide (st.opacity > 0)

/-- `VisibilityCheckEntry` (the `target` is the element's identity key; the
`oldValue` back-pointer, a diagnostic never read by any caller, is not
modelled). -/
structure VisibilityCheckEntry where
  target : Nat
  isVisible : Bool
  isStyleVisible : Bool
  intersectionRatio : ℚ
  intersectionRect : Rect
deriving DecidableEq

/-- Per-element browser measurements. -/
structure ElemEnv where
  rect : Rect
  style : Style

/-- The browser environment of one evaluation pass. -/
structure VisEnv where
  elem : Nat → ElemEnv
  innerWidth : ℚ
  innerHeight : ℚ

/-- Evaluator options (`root`, `threshold`, `sensitivity`, `rootMargin`). -/
structure VisOptions where
  root : Option Nat
  threshold : ℚ
  sensitivity : ℚ
  rootMargin : List MarginVal

/-- `getRootRect(root)`. -/
def getRootRect (env : VisEnv) (root : Option Nat) : Rect :=
  match root with
  | some r => (env.elem r).rect
  | none => mkDOMRect 0 0 env.innerWidth env.innerHeight

/-- The body of `computeVisibility`'s per-element loop: the entry written
into `current` for `el`, given the already-expanded root rect.  Note the
change condition: `!old || wasVisible !== nowVisible ||
(wasVisible !== nowVisible && |currRatio − prevRatio| > sensitivity)` —
its third disjunct repeats the second, so a ratio-only change keeps the old
entry. -/
def computeVisibilityEntry (env : VisEnv) (expandedRoot : Rect)
    (threshold sensitivity : ℚ)
    (previous : List (Nat × VisibilityCheckEntry)) (el : Nat) :
    VisibilityCheckEntry :=
  let elRect := (env.elem el).rect
  let ir :=
    if elRect.width > 0 ∧ elRect.height > 0 then
      computeIntersectionRect elRect expandedRoot
    else emptyRect
  let intersectionRatio :=
    if elRect.width > 0 ∧ elRect.height > 0 then
      (jsRound (computeIntersectionRatio elRect ir * 100) : ℚ) / 100
    else 0
  let isStyle := isStyleVisible (env.elem el).style
  let old := JsMap.get? previous el
  let prevRatio := match old with | some o => o.intersectionRatio | none => 0
  let currRatio := intersectionRatio
  let wasVisible :=
    match old with
    | some o => o.isStyleVisible && decide (prevRatio > threshold)
    | none => false
  let nowVisible := isStyle && decide (currRatio > threshold)
  let changed :=
    old.isNone || (wasVisible != nowVisible) ||
      ((wasVisible != nowVisible) &&
        decide (|currRatio - prevRatio| > sensitivity))
  if changed then
    { target := el, isVisible := nowVisible, isStyleVisible := isStyle,
      intersectionRatio := currRatio, intersectionRect := ir }
  else
    -- `current.set(el, old)`; `old` is present here since `!old` implies
    -- `changed`.
    (old.getD { target := el, isVisible := nowVisible,
                isStyleVisible := isStyle, intersectionRatio := currRatio,
                intersectionRect := ir })

/-- `computeVisibility(elements, previous, options)`: a fresh map with one
entry per element, in iteration order. -/
def computeVisibility (env : VisEnv) (elements : List Nat)
    (previous : List (Nat × VisibilityCheckEntry)) (options : VisOptions) :
    List (Nat × VisibilityCheckEntry) :=
  let rootRect := getRootRect env options.root
  let expandedRoot := expandRootRect rootRect (parseRootMargin options.rootMargin rootRect)
  elements.foldl
    (fun current el =>
      JsMap.set current el
        (computeVisibilityEntry env expandedRoot options.threshold
          options.sensitivity previous el))
    []

/-- The root preparation prelude of `computeVisibility`: the root rect
expanded by the parsed `rootMargin`. -/
def expandedRootOf (env : VisEnv) (options : VisOptions) : Rect :=
  let rootRect := getRootRect env options.root
  expandRootRect rootRect (parseRootMargin options.rootMargin rootRect)

/-- The spec's wording of the intersection ratio (§4.3 step 3): the area of
the intersection of the element's bounding rect with the expanded root rect,
divided by the element's area, rounded to two decimals; `0` when the
element's width or height is `0`. -/
def specIntersectionRatio (env : VisEnv) (options : VisOptions) (el : Nat) : ℚ :=
  let elRect := (env.elem el).rect
  let ir := computeIntersectionRect elRect (expandedRootOf env options)
  if elRect.width = 0 ∨ elRect.height = 0 then 0
  else (jsRound (ir.width * ir.height / (elRect.width * elRect.height) * 100) : ℚ)
    / 100

/-! ## VisibilityManager
(rrweb/src/record/observers/visibility/visibility-manager.ts)

Emissions are collected as the list of `mutationCb` payloads (each payload's
`mutations` array) and the list of `notifyActivity` arguments.  Timer and
rAF handles are opaque numbers supplied by the caller; `rafPending` records
whether an animation-frame callback is still scheduled. -/

/-- The visibility mutation tuple `{id, isVisible, ratio}`. -/
structure VisibilityMutation where
  id : Int
  isVisible : Bool
  ratio : ℚ
deriving DecidableEq

/-- The manager's `mode` option. -/
inductive VMode where
  | debounce
  | throttle
  | none
deriving DecidableEq

/-- Mutable fields of `VisibilityManager`. -/
structure VMState where
  frozen : Bool
  locked : Bool
  pending : List (Nat × VisibilityMutation)
  rafId : Option Nat
  rafPending : Bool
  rafThrottle : ℚ
  lastFlushTime : ℚ
  elements : List Nat
  previousState : List (Nat × VisibilityCheckEntry)
  root : Option Nat
  threshold : ℚ
  sensitivity : ℚ
  rootMargin : List MarginVal
  hasInitialized : Bool
  mode : VMode
  debounce : ℚ
  throttle : ℚ
  buffer : List (Nat × VisibilityMutation)
  debounceTimer : Option Nat
  lastThrottleTime : ℚ
  disabled : Bool
deriving DecidableEq

/-- Result of a manager step: next state, `mutationCb` payloads, and
`notifyActivity` arguments. -/
structure VMOut where
  state : VMState
  emitted : List (List VisibilityMutation)
  notified : List Nat
deriving DecidableEq

/-- `flushBuffer()`: nothing when the buffer is empty; else one
`notifyActivity(buffer.size)` and one `mutationCb` carrying
`Array.from(buffer.values())`, then the buffer is cleared. -/
def flushBuffer (s : VMState) : VMOut :=
  if JsMap.size s.buffer = 0 then { state := s, emitted := [], notified := [] }
  else
    { state := { s with buffer := [] },
      emitted := [JsMap.values s.buffer],
      notified := [JsMap.size s.buffer] }

/-- `scheduleEmit()`: debounce restarts the timer (the new handle is
`timerId`), throttle emits only when `now − lastThrottleTime ≥ throttle`,
mode `none` emits immediately. -/
def scheduleEmit (now : ℚ) (timerId : Nat) (s : VMState) : VMOut :=
  match s.mode with
  | .debounce => { state := { s with debounceTimer := some timerId }, emitted := [], notified := [] }
  | .throttle =>
    if now - s.lastThrottleTime ≥ s.throttle then
      flushBuffer { s with lastThrottleTime := now }
    else { state := s, emitted := [], notified := [] }
  | .none => flushBuffer s

/-- A pending debounce timer firing after `scheduleEmit` armed it: the
`setTimeout(() => this.flushBuffer(), …)` callback (the stale handle stays
in `debounceTimer`, as in the source). -/
def debounceFire (s : VMState) : VMOut := flushBuffer s

/-- The body of the `for (const [el, entry] of state.entries())` loop of
`flushPendingVisibilityMutations`: when the manager deems the entry changed
(`!old || old.isVisible !== entry.isVisible || |Δratio| > sensitivity`
against the in-loop `previousState`), record `{id, isVisible, ratio}` into
`buffer` (unless the mirror does not know the element) and update
`previousState`. -/
def recordChangeStep (getId : Nat → Int) (acc : VMState)
    (p : Nat × VisibilityCheckEntry) : VMState :=
  let el := p.1
  let entry := p.2
  let old := JsMap.get? acc.previousState el
  let changed :=
    match old with
    | none => true
    | some o =>
      (o.isVisible != entry.isVisible) ||
        decide (|o.intersectionRatio - entry.intersectionRatio| > acc.sensitivity)
  if changed then
    let vmut : VisibilityMutation :=
      { id := getId el, isVisible := entry.isVisible,
        ratio := entry.intersectionRatio }
    let acc' :=
      if getId el ≠ -1 then
        { acc with buffer := JsMap.set acc.buffer el vmut }
      else acc
    { acc' with previousState := JsMap.set acc'.previousState el entry }
  else acc

/-- The change-recording phase of `flushPendingVisibilityMutations`
continued: fold the loop body over the fresh map, then
`this.previousState = state`. -/
def recordChanges (env : VisEnv) (getId : Nat → Int) (s : VMState) : VMState :=
  let state := computeVisibility env s.elements s.previousState
    { root := s.root, threshold := s.threshold, sensitivity := s.sensitivity,
      rootMargin := s.rootMargin }
  let s1 := state.foldl (recordChangeStep getId) s
  { s1 with previousState := state }

/-- `flushPendingVisibilityMutations()`: guarded by `disabled`,
`frozen || locked || elements.size === 0`; records changes; on the first
pass sets `hasInitialized` and clears the buffer without emitting; else
defers to `scheduleEmit`. -/
def flushPendingVisibilityMutations (env : VisEnv) (getId : Nat → Int)
    (now : ℚ) (timerId : Nat) (s : VMState) : VMOut :=
  if s.disabled then { state := s, emitted := [], notified := [] }
  else if s.frozen || s.locked || (s.elements.length == 0) then
    { state := s, emitted := [], notified := [] }
  else
    let s2 := recordChanges env getId s
    if !s2.hasInitialized then
      { state := { s2 with hasInitialized := true, buffer := [] },
        emitted := [], notified := [] }
    else scheduleEmit now timerId s2

/-- `observe(el)` (the `elements` set keeps insertion order, no duplicates). -/
def vmObserve (s : VMState) (el : Nat) : VMState :=
  if s.disabled then s
  else if s.elements.contains el then s
  else { s with elements := s.elements ++ [el] }

/-- `unobserve(el)`: drops the element from `elements`, `previousState` and
`pending` — but not from `buffer`. -/
def vmUnobserve (s : VMState) (el : Nat) : VMState :=
  if s.disabled then s
  else
    { s with elements := s.elements.filter (fun e => ¬ e = el),
             previousState := JsMap.del s.previousState el,
             pending := JsMap.del s.pending el }

/-- `freeze()` / `unfreeze()` / `lock()` / `unlock()`. -/
def vmFreeze (s : VMState) : VMState := { s with frozen := true }

/-- `unfreeze()`. -/
def vmUnfreeze (s : VMState) : VMState := { s with frozen := false }

/-- `lock()`. -/
def vmLock (s : VMState) : VMState := { s with locked := true }

/-- `unlock()`. -/
def vmUnlock (s : VMState) : VMState := { s with locked := false }

/-- `reset()`: clears `elements`, `previousState` and `pending`, and cancels
the animation frame when a handle was stored.  The emit `buffer`, the
`debounceTimer` handle and every other field survive. -/
def vmReset (s : VMState) : VMState :=
  { s with elements := [], previousState := [], pending := [],
           rafPending := if s.rafId.isSome then false else s.rafPending }

/-! ## Emit pipeline and checkout policy (rrweb/src/record/index.ts)

The event taxonomy is reduced to what the pipeline inspects: the event
`type` discriminant, and for incremental snapshots the `source`
discriminant (mutation / visibility mutation / anything else) plus the
`isAttachIframe` flag of mutation payloads.  Each emission records the
event, its timestamp (`nowTimestamp()`, supplied by the caller) and the
`isCheckout` flag the sink receives. -/

/-- The `data.source` discriminant, as far as the pipeline inspects it. -/
inductive IncSource where
  | mutation
  | visibilityMutation
  | otherSource
deriving DecidableEq

/-- An event, reduced to the discriminants the emit pipeline reads. -/
inductive REvent where
  | domContentLoaded
  | load
  | meta
  | fullSnapshot
  | incremental (source : IncSource) (isAttachIframe : Bool)
  | custom (tag : String) (payload : Nat)
  | plugin
deriving DecidableEq

/-- One call of the sink `emit(event, isCheckout)`: the event, the timestamp
stamped by `wrappedEmit`, and the `isCheckout` flag (`undefined` modelled as
`false`). -/
structure Emitted where
  event : REvent
  timestamp : Int
  isCheckout : Bool
deriving DecidableEq

/-- Checkout options of `record()`.  A missing option is `none`; JS `&&`
treats the number `0` like a missing option. -/
structure EmitOptions where
  checkoutEveryNth : Option Nat
  checkoutEveryNms : Option Nat
  checkoutEveryNvm : Option Nat
  recordDOM : Bool
deriving DecidableEq

/-- JS truthiness of an optional numeric option. -/
def optTruthy : Option Nat → Bool
  | none => false
  | some n => !(n = 0)

/-- The closed-over counters of `record()`:
`incrementalSnapshotCount`, `recentVisibilityChanges` and
`lastFullSnapshotEvent.timestamp` (`none` before the first full snapshot;
the source would fault on a time-based checkout test in that state, which
never happens because a full snapshot precedes every incremental). -/
structure EmitState where
  incrementalSnapshotCount : Nat
  recentVisibilityChanges : Nat
  lastFullSnapshotTimestamp : Option Int
deriving DecidableEq

/-- Result of an emit-pipeline step. -/
structure EmitOut where
  state : EmitState
  events : List Emitted
deriving DecidableEq

/-- `exceedCount`: `checkoutEveryNth && incrementalSnapshotCount ≥ checkoutEveryNth`. -/
def exceedCountP (opts : EmitOptions) (count : Nat) : Bool :=
  optTruthy opts.checkoutEveryNth && decide (count ≥ opts.checkoutEveryNth.getD 0)

/-- `exceedTime`: `checkoutEveryNms && e.timestamp − lastFullSnapshotEvent.timestamp > checkoutEveryNms`. -/
def exceedTimeP (opts : EmitOptions) (lastTs : Option Int) (t : Int) : Bool :=
  optTruthy opts.checkoutEveryNms &&
    (match lastTs with
     | some lt => decide (t - lt > (opts.checkoutEveryNms.getD 0 : Int))
     | none => false)

/-- `exceedVisibility`: `checkoutEveryNvm && recentVisibilityChanges ≥ checkoutEveryNvm`. -/
def exceedVisibilityP (opts : EmitOptions) (vc : Nat) : Bool :=
  optTruthy opts.checkoutEveryNvm && decide (vc ≥ opts.checkoutEveryNvm.getD 0)

/-- `onVisibilityActivity(count)` (the `notifyActivity` sink). -/
def onVisibilityActivity (k : Nat) (s : EmitState) : EmitState :=
  { s with recentVisibilityChanges := s.recentVisibilityChanges + k }

/-- `wrappedEmit` on a `Meta` event: emitted to the sink, counters untouched. -/
def emitMeta (t : Int) (isCheckout : Bool) (s : EmitState) : EmitOut :=
  { state := s, events := [{ event := .meta, timestamp := t, isCheckout := isCheckout }] }

/-- `wrappedEmit` on a `FullSnapshot` event: emitted, then
`lastFullSnapshotEvent = e; incrementalSnapshotCount = 0`. -/
def emitFullSnapshot (t : Int) (isCheckout : Bool) (s : EmitState) : EmitOut :=
  { state := { s with lastFullSnapshotTimestamp := some t,
                      incrementalSnapshotCount := 0 },
    events := [{ event := .fullSnapshot, timestamp := t, isCheckout := isCheckout }] }

/-- `takeFullSnapshot(isCheckout)`: nothing when `recordDOM` is off; else a
`Meta` event, then — when `snapshot(document, …)` succeeds (`snapshotOk`) —
the `FullSnapshot` event; both carry `isCheckout`.  `tMeta`/`tFull` are the
`nowTimestamp()` values of the two emissions. -/
def takeFullSnapshot (opts : EmitOptions) (isCheckout : Bool)
    (tMeta tFull : Int) (snapshotOk : Bool) (s : EmitState) : EmitOut :=
  if !opts.recordDOM then { state := s, events := [] }
  else
    let o1 := emitMeta tMeta isCheckout s
    if !snapshotOk then o1
    else
      let o2 := emitFullSnapshot tFull isCheckout o1.state
      { state := o2.state, events := o1.events ++ o2.events }

/-- `wrappedEmit` on an `IncrementalSnapshot` event at time `t`: the event
reaches the sink first; an attach-iframe mutation returns without touching
the counters; otherwise the count is bumped, the three checkout predicates
are evaluated, and when one fires (`exceedVisibility` alone resets the
visibility counter) `takeFullSnapshot(true)` runs. -/
def emitIncremental (opts : EmitOptions) (source : IncSource)
    (isAttachIframe : Bool) (t tMeta tFull : Int) (snapshotOk : Bool)
    (s : EmitState) : EmitOut :=
  let ev : Emitted :=
    { event := .incremental source isAttachIframe, timestamp := t, isCheckout := false }
  if source = .mutation ∧ isAttachIframe then { state := s, events := [ev] }
  else
    let s1 := { s with incrementalSnapshotCount := s.incrementalSnapshotCount + 1 }
    let exceedCount := exceedCountP opts s1.incrementalSnapshotCount
    let exceedTime := exceedTimeP opts s1.lastFullSnapshotTimestamp t
    let exceedVisibility := exceedVisibilityP opts s1.recentVisibilityChanges
    if exceedCount || exceedTime || exceedVisibility then
      let s2 :=
        if exceedVisibility then { s1 with recentVisibilityChanges := 0 } else s1
      let o := takeFullSnapshot opts true tMeta tFull snapshotOk s2
      { state := o.state, events := ev :: o.events }
    else { state := s1, events := [ev] }

/-! ## Facade: custom events, init order, stop handle
(rrweb/src/record/index.ts) -/

/-- The `flushCustomEvent` option. -/
inductive FlushMode where
  | before
  | after
deriving DecidableEq

/-- The option default: `options.flushCustomEvent !== undefined ? … : 'after'`. -/
def resolveFlushMode (o : Option FlushMode) : FlushMode := o.getD .after

/-- Facade-level state: the module-level `recording` flag and
`customEventQueue`, the `handlers` teardown list (collapsed to a flag), the
visibility manager, the mirror, and the error-handler registration. -/
structure RecState where
  recording : Bool
  customEventQueue : List REvent
  handlersInstalled : Bool
  vm : VMState
  mirror : Mirror
  errorHandlerRegistered : Bool
deriving DecidableEq

/-- `record.addCustomEvent(tag, payload)`: queued (with a console warning,
not an emission) while `recording` is false, else emitted through
`wrappedEmit` at the current time. -/
def addCustomEvent (tag : String) (payload : Nat) (t : Int) (s : RecState) :
    RecState × List Emitted :=
  let customEvent := REvent.custom tag payload
  if !s.recording then
    ({ s with customEventQueue := s.customEventQueue ++ [customEvent] }, [])
  else
    (s, [{ event := customEvent, timestamp := t, isCheckout := false }])

/-- Trace marker for the `init()` sequence: an emission or the observer
installation (`handlers.push(observe(document))`). -/
inductive InitAction where
  | emitted (e : REvent)
  | observersInstalled
deriving DecidableEq

/-- `flushCustomEventQueue()` as the emissions it produces, in queue order. -/
def flushQueueActions (q : List REvent) : List InitAction :=
  q.map InitAction.emitted

/-- `init()`: flush the queue when `flushCustomEvent === 'before'`; take the
first full snapshot (a `Meta` then a `FullSnapshot` emission); install the
observers; set `recording`; flush the queue when
`flushCustomEvent === 'after'`. -/
def recordInit (flushCustomEvent : FlushMode) (s : RecState) :
    RecState × List InitAction :=
  let pre := if flushCustomEvent = .before then flushQueueActions s.customEventQueue else []
  let q0 := if flushCustomEvent = .before then [] else s.customEventQueue
  let snapActions := [InitAction.emitted .meta, InitAction.emitted .fullSnapshot]
  let post := if flushCustomEvent = .after then flushQueueActions q0 else []
  let q1 := if flushCustomEvent = .after then [] else q0
  ({ s with recording := true, handlersInstalled := true, customEventQueue := q1 },
   pre ++ snapActions ++ [InitAction.observersInstalled] ++ post)

/-- Modelled from the spec: the disposer returned by `initObservers`
(rrweb/src/record/observer.ts, absent from the source tree; only its caller
is available).  Per spec §4.5/§5 the teardown detaches the per-document
observers and tears the visibility pipeline down through
`VisibilityManager.reset()`. -/
def observersTeardown (s : RecState) : RecState :=
  { s with handlersInstalled := false, vm := vmReset s.vm }

/-- The stop handle returned by `record()`: flush the custom-event queue
(each queued event is emitted through `wrappedEmit`), run every recorded
teardown handler, destroy the processed-node manager, clear `recording`,
and unregister the error handler.  The mirror is not touched. -/
def stopHandle (ts : Int) (s : RecState) : RecState × List Emitted :=
  let emitted := s.customEventQueue.map
    (fun e => { event := e, timestamp := ts, isCheckout := false : Emitted })
  let s1 := { s with customEventQueue := [] }
  let s2 := observersTeardown s1
  ({ s2 with recording := false, errorHandlerRegistered := false }, emitted)

/-- `record.takeFullSnapshot(isCheckout)`: throws before recording starts,
else delegates to the closed-over `takeFullSnapshot` with the flag. -/
def recordTakeFullSnapshot (recording : Bool) (isCheckout : Bool)
    (opts : EmitOptions) (tMeta tFull : Int) (snapshotOk : Bool)
    (s : EmitState) : Except String EmitOut :=
  if !recording then
    .error "please take full snapshot after start recording"
  else
    .ok (takeFullSnapshot opts isCheckout tMeta tFull snapshotOk s)

/-! ## Concrete fixtures

Closed instances used by witnesses and counterexamples. -/

/-- A visibly-styled computed style. -/
def styleW : Style :=
  { display := "block", visibility := "visible", opacity := 1 }

/-- Environment in which every element measures `0×0` (rendered collapsed). -/
def envZeroW : VisEnv :=
  { elem := fun _ => { rect := mkDOMRect 0 0 0 0, style := styleW },
    innerWidth := 100, innerHeight := 100 }

/-- Environment in which every element measures `10×10` at the origin inside
a `100×100` viewport (fully intersecting). -/
def envBoxW : VisEnv :=
  { elem := fun _ => { rect := mkDOMRect 0 0 10 10, style := styleW },
    innerWidth := 100, innerHeight := 100 }

/-- Mirror id lookup used by the fixtures (every element known, id 7). -/
def getIdW : Nat → Int := fun _ => 7

/-- Manager state ready for an unsuppressed flush: initialized, mode
`'none'`, one observed element, nothing seen before. -/
def sFlushW : VMState :=
  { frozen := false, locked := false, pending := [], rafId := some 1,
    rafPending := true, rafThrottle := 100, lastFlushTime := 0,
    elements := [4], previousState := [], root := none, threshold := 2,
    sensitivity := 0, rootMargin := [], hasInitialized := true,
    mode := VMode.none, debounce := 100, throttle := 100, buffer := [],
    debounceTimer := none, lastThrottleTime := 0, disabled := false }

/-- Evaluator options of the stale-ratio scenario: default root, threshold 2
(nothing ever classifies visible), sensitivity 0. -/
def optsStaleW : VisOptions :=
  { root := none, threshold := 2, sensitivity := 0, rootMargin := [] }

/-- A previously stored entry with intersection ratio 0. -/
def oldEntryW : VisibilityCheckEntry :=
  { target := 0, isVisible := false, isStyleVisible := true,
    intersectionRatio := 0, intersectionRect := emptyRect }

/-- Manager state holding the stale entry for element 0, with the options of
`optsStaleW`. -/
def sStaleW : VMState :=
  { frozen := false, locked := false, pending := [], rafId := some 1,
    rafPending := true, rafThrottle := 100, lastFlushTime := 0,
    elements := [0], previousState := [(0, oldEntryW)], root := none,
    threshold := 2, sensitivity := 0, rootMargin := [],
    hasInitialized := true, mode := VMode.none, debounce := 100,
    throttle := 100, buffer := [], debounceTimer := none,
    lastThrottleTime := 0, disabled := false }

/-- A buffered visibility tuple. -/
def vmutW : VisibilityMutation := { id := 5, isVisible := true, ratio := 1 }

/-- Manager state with a armed debounce timer and a non-empty emit buffer. -/
def vmPendingW : VMState :=
  { frozen := false, locked := false, pending := [], rafId := some 2,
    rafPending := true, rafThrottle := 100, lastFlushTime := 0,
    elements := [3], previousState := [], root := none, threshold := 2,
    sensitivity := 0, rootMargin := [], hasInitialized := true,
    mode := VMode.debounce, debounce := 50, throttle := 100,
    buffer := [(3, vmutW)], debounceTimer := some 7, lastThrottleTime := 0,
    disabled := false }

/-- A live recorder about to be stopped, with a non-empty mirror and the
pending visibility state of `vmPendingW`. -/
def recStopW : RecState :=
  { recording := true, customEventQueue := [], handlersInstalled := true,
    vm := vmPendingW,
    mirror := { idNodeMap := [(1, 0)],
                nodeMetaMap := [(0, { id := 1, payload := 0 })] },
    errorHandlerRegistered := true }

/-- A recorder that has not started yet (custom events must queue). -/
def recIdleW : RecState :=
  { recording := false, customEventQueue := [], handlersInstalled := false,
    vm := sFlushW, mirror := { idNodeMap := [], nodeMetaMap := [] },
    errorHandlerRegistered := false }

/-- Checkout options: every incremental triggers the count predicate, the
visibility predicate needs 5 changes. -/
def optsCntW : EmitOptions :=
  { checkoutEveryNth := some 1, checkoutEveryNms := none,
    checkoutEveryNvm := some 5, recordDOM := true }

/-- Pipeline counters with 3 accumulated visibility changes. -/
def sCntW : EmitState :=
  { incrementalSnapshotCount := 0, recentVisibilityChanges := 3,
    lastFullSnapshotTimestamp := some 0 }

/-! ## Helper lemmas -/

/-- Looking up the key just deleted yields nothing. -/
theorem JsMap.get?_del_self {α β : Type} [DecidableEq α]
    (m : List (α × β)) (k : α) :
    JsMap.get? (JsMap.del m k) k = none := by
  induction m with
  | nil => rfl
  | cons p rest ih =>
    by_cases h : p.1 = k
    · simp [JsMap.del, JsMap.get?, h, ih]
    · simp [JsMap.del, JsMap.get?, h, ih]

/-- Deletion preserves the absence of any key. -/
theorem JsMap.get?_del_none {α β : Type} [DecidableEq α]
    (m : List (α × β)) (i k : α)
    (h : JsMap.get? m i = none) : JsMap.get? (JsMap.del m k) i = none := by
  induction m with
  | nil => rfl
  | cons p rest ih =>
    by_cases hp : p.1 = i
    · simp [JsMap.get?, hp] at h
    · by_cases hk : p.1 = k <;>
        simpa [JsMap.del, JsMap.get?, hp, hk] using
          ih (by simpa [JsMap.get?, hp] using h)

/-- `set` stores the value under its key (last writer wins). -/
theorem JsMap.get?_set_self {α β : Type} [DecidableEq α]
    (m : List (α × β)) (k : α) (v : β) :
    JsMap.get? (JsMap.set m k v) k = some v := by
  induction m with
  | nil => simp [JsMap.set, JsMap.get?]
  | cons p rest ih =>
    by_cases h : p.1 = k
    · simp [JsMap.set, JsMap.get?, h]
    · simpa [JsMap.set, JsMap.get?, h] using ih

/-- The keys after a `set`: unchanged when the key was present, else the key
is appended. -/
theorem JsMap.keys_set {α β : Type} [DecidableEq α]
    (m : List (α × β)) (k : α) (v : β) :
    JsMap.keys (JsMap.set m k v)
      = if k ∈ JsMap.keys m then JsMap.keys m else JsMap.keys m ++ [k] := by
  induction m with
  | nil => simp [JsMap.set, JsMap.keys]
  | cons p rest ih =>
    by_cases hp : p.1 = k
    · rw [show JsMap.set (p :: rest) k v = (k, v) :: rest by
        simp [JsMap.set, hp]]
      simp only [JsMap.keys, List.map_cons, hp]
      rw [if_pos (by simp)]
    · rw [show JsMap.set (p :: rest) k v = p :: JsMap.set rest k v by
        simp [JsMap.set, hp]]
      simp only [JsMap.keys, List.map_cons] at ih ⊢
      rw [ih]
      by_cases hk : k ∈ List.map (fun x => x.1) rest
      · rw [if_pos hk, if_pos (by simp [hk])]
      · rw [if_neg hk, if_neg (by
          intro hmem
          rcases List.mem_cons.mp hmem with h1 | h1
          · exact hp h1.symm
          · exact hk h1), List.cons_append]

/-- `set` keeps keys unique. -/
theorem JsMap.keys_set_nodup {α β : Type} [DecidableEq α]
    (m : List (α × β)) (k : α) (v : β) (h : (JsMap.keys m).Nodup) :
    (JsMap.keys (JsMap.set m k v)).Nodup := by
  rw [JsMap.keys_set]
  by_cases hk : k ∈ JsMap.keys m
  · simpa [hk] using h
  · simpa [hk, List.nodup_append] using h

/-! ## C4 — input masking -/

/-- C4: for an input whose tag or type is selected by the mask policy and no
`maskInputFn` is supplied, `maskInputValue` yields a string of the same
length as the original consisting only of `'*'`; with a `maskInputFn` its
output is used; with neither tag nor type selected the value is returned
unchanged. -/
theorem maskInputValue_policy (opts : List String) (tagName : String)
    (type? : Option String) (value? : Option String)
    (f : String → Nat → String) (mfn : Option (String → Nat → String))
    (el : Nat) :
    (maskPolicySelected opts tagName type? = true →
      (maskInputValue opts tagName type? value? none el).length
          = (value?.getD "").length
        ∧ ∀ c ∈ (maskInputValue opts tagName type? value? none el).data, c = '*')
    ∧ (maskPolicySelected opts tagName type? = true →
        maskInputValue opts tagName type? value? (some f) el
          = f (value?.getD "") el)
    ∧ (maskPolicySelected opts tagName type? = false →
        maskInputValue opts tagName type? value? mfn el = value?.getD "") := by
  refine ⟨fun h => ⟨?_, ?_⟩, fun h => ?_, fun h => ?_⟩
  · have hm : maskInputValue opts tagName type? value? none el
        = String.mk (List.replicate (value?.getD "").length '*') := by
      simp [maskInputValue, h]
    rw [hm]
    show (List.replicate (value?.getD "").length '*').length = _
    exact List.length_replicate _ _
  · intro c hc
    have hm : maskInputValue opts tagName type? value? none el
        = String.mk (List.replicate (value?.getD "").length '*') := by
      simp [maskInputValue, h]
    rw [hm] at hc
    exact List.eq_of_mem_replicate hc
  · simp [maskInputValue, h]
  · simp [maskInputValue, h]

/-- Witness for C4 at concrete inputs: a password input is fully starred, a
non-selected input passes through. -/
theorem maskInputValue_policy_witness :
    (maskPolicySelected ["password"] "input" (some "PASSWORD") = true
      ∧ ((maskInputValue ["password"] "input" (some "PASSWORD") (some "secret")
            none 0).length = ((some "secret" : Option String).getD "").length
        ∧ ∀ c ∈ (maskInputValue ["password"] "input" (some "PASSWORD")
            (some "secret") none 0).data, c = '*'))
    ∧ (maskPolicySelected ["text"] "select" (some "checkbox") = false
      ∧ maskInputValue ["text"] "select" (some "checkbox") (some "hello")
          none 3 = ((some "hello" : Option String).getD "")) :=
  ⟨⟨by decide,
    (maskInputValue_policy ["password"] "input" (some "PASSWORD")
      (some "secret") (fun t _ => t) none 0).1 (by decide)⟩,
   ⟨by decide,
    (maskInputValue_policy ["text"] "select" (some "checkbox")
      (some "hello") (fun t _ => t) none 3).2.2 (by decide)⟩⟩

/-! ## C6 — interactivity classification -/

/-- C6: `isElementInteractive` classifies an element as interactive exactly
when the spec's disjunction holds — tag in the fixed set, real
`tabindex ≠ -1`, role in the fixed set, non-disabled `<button>`, `<a href>`,
or registry membership; and the registry is fed by the patched
`addEventListener` (exactly for lowercased types in `interactiveEvents`)
and the inline `on*` attribute scan. -/
theorem isElementInteractive_iff (registry : List Nat) (el : DomElement)
    (isElem : Bool) (elKey : Nat) (ty : String) :
    isElementInteractive registry el = specInteractive registry el
    ∧ (patchedAddEventListener registry isElem elKey ty).contains elKey
        = (registry.contains elKey
            || (isElem && interactiveEvents.contains (toLowerCase ty)))
    ∧ (inspectInlineEventHandlersOn registry el).contains el.key
        = (registry.contains el.key
            || inlineEventAttributes.any (fun attr => el.hasAttribute attr)) := by
  refine ⟨?_, ?_, ?_⟩
  · by_cases h : toLowerCase el.tagName ∈ interactiveTags
    · simp [isElementInteractive, specInteractive, h]
    · simp [isElementInteractive, specInteractive, hasEventListeners, h,
        Bool.or_comm, Bool.or_left_comm, Bool.or_assoc]
  · by_cases hE : isElem = true <;>
      by_cases hC : toLowerCase ty ∈ interactiveEvents <;>
        by_cases h2 : elKey ∈ registry <;>
          simp [patchedAddEventListener, hE, hC, h2]
  · by_cases h : inlineEventAttributes.any (fun attr => el.hasAttribute attr)
        = true <;>
      by_cases h2 : el.key ∈ registry <;>
        simp [inspectInlineEventHandlersOn, h, h2]

/-! ## C10 — manual full snapshot guard -/

/-- C10: `record.takeFullSnapshot` throws
`"please take full snapshot after start recording"` when no recording is in
progress (and then nothing is emitted: only the `.ok` branch carries
emissions), and otherwise delegates to the internal `takeFullSnapshot` with
the given `isCheckout` flag. -/
theorem recordTakeFullSnapshot_guard (recording isCheckout : Bool)
    (opts : EmitOptions) (tMeta tFull : Int) (snapshotOk : Bool)
    (s : EmitState) :
    (recording = false →
      recordTakeFullSnapshot recording isCheckout opts tMeta tFull snapshotOk s
        = .error "please take full snapshot after start recording")
    ∧ (recording = true →
      recordTakeFullSnapshot recording isCheckout opts tMeta tFull snapshotOk s
        = .ok (takeFullSnapshot opts isCheckout tMeta tFull snapshotOk s)) := by
  constructor <;> intro h <;> simp [recordTakeFullSnapshot, h]

/-- Witness for C10: concrete calls on both sides of the guard. -/
theorem recordTakeFullSnapshot_guard_witness :
    (recordTakeFullSnapshot false true
        { checkoutEveryNth := none, checkoutEveryNms := none,
          checkoutEveryNvm := none, recordDOM := true } 1 2 true
        { incrementalSnapshotCount := 0, recentVisibilityChanges := 0,
          lastFullSnapshotTimestamp := none }
      = .error "please take full snapshot after start recording")
    ∧ (recordTakeFullSnapshot true true
        { checkoutEveryNth := none, checkoutEveryNms := none,
          checkoutEveryNvm := none, recordDOM := true } 1 2 true
        { incrementalSnapshotCount := 0, recentVisibilityChanges := 0,
          lastFullSnapshotTimestamp := none }
      = .ok (takeFullSnapshot
          { checkoutEveryNth := none, checkoutEveryNms := none,
            checkoutEveryNvm := none, recordDOM := true } true 1 2 true
          { incrementalSnapshotCount := 0, recentVisibilityChanges := 0,
            lastFullSnapshotTimestamp := none })) :=
  ⟨(recordTakeFullSnapshot_guard false true _ 1 2 true _).1 rfl,
   (recordTakeFullSnapshot_guard true true _ 1 2 true _).2 rfl⟩

/-! ## C9 — custom event queue and flush position -/

/-- C9: a custom event added while not recording is queued, not emitted; at
start, `init` emits the whole queue before the first full snapshot under
`flushCustomEvent = 'before'`, and after the full snapshot and the observer
installation under `'after'` (the default), emptying the queue. -/
theorem customEvent_queue_flush (s : RecState) (tag : String) (payload : Nat)
    (t : Int) :
    (s.recording = false →
      addCustomEvent tag payload t s
        = ({ s with customEventQueue :=
              s.customEventQueue ++ [REvent.custom tag payload] }, []))
    ∧ (recordInit .before s).2
        = flushQueueActions s.customEventQueue
            ++ [.emitted .meta, .emitted .fullSnapshot, .observersInstalled]
    ∧ (recordInit .after s).2
        = [.emitted .meta, .emitted .fullSnapshot, .observersInstalled]
            ++ flushQueueActions s.customEventQueue
    ∧ (recordInit .before s).1.customEventQueue = []
    ∧ (recordInit .after s).1.customEventQueue = []
    ∧ resolveFlushMode none = .after := by
  refine ⟨fun h => ?_, ?_, ?_, ?_, ?_, rfl⟩
  · simp [addCustomEvent, h]
  · simp [recordInit, flushQueueActions]
  · simp [recordInit, flushQueueActions]
  · simp [recordInit]
  · simp [recordInit]

/-- Witness for C9: adding a custom event to the idle recorder queues it and
emits nothing. -/
theorem customEvent_queue_flush_witness :
    recIdleW.recording = false
    ∧ addCustomEvent "breadcrumb" 3 5 recIdleW
        = ({ recIdleW with customEventQueue :=
              recIdleW.customEventQueue ++ [REvent.custom "breadcrumb" 3] },
           []) :=
  ⟨rfl, (customEvent_queue_flush recIdleW "breadcrumb" 3 5).1 rfl⟩

/-! ## C8 — Mirror removal and reset -/

mutual
/-- `removeNodeFromMap` never touches the `nodeMetaMap` side. -/
theorem removeNodeFromMap_metaMap (m : Mirror) (n : DNode) :
    (m.removeNodeFromMap n).nodeMetaMap = m.nodeMetaMap := by
  cases n with
  | mk k cs =>
    rw [Mirror.removeNodeFromMap]
    exact removeChildren_metaMap _ cs

/-- `removeChildren` never touches the `nodeMetaMap` side. -/
theorem removeChildren_metaMap (m : Mirror) (cs : List DNode) :
    (Mirror.removeChildren m cs).nodeMetaMap = m.nodeMetaMap := by
  cases cs with
  | nil => rfl
  | cons c cs =>
    rw [Mirror.removeChildren]
    rw [removeChildren_metaMap, removeNodeFromMap_metaMap]
end

/-- `getId` only reads the `nodeMetaMap` side. -/
theorem getId_congr (m m' : Mirror) (h : m.nodeMetaMap = m'.nodeMetaMap)
    (x : Option DNode) : m.getId x = m'.getId x := by
  cases x <;> simp [Mirror.getId, Mirror.getMeta, h]

mutual
/-- Removal only shrinks `idNodeMap`: an absent id stays absent. -/
theorem removeNodeFromMap_absent (m : Mirror) (n : DNode) (i : Int)
    (h : m.has i = false) : (m.removeNodeFromMap n).has i = false := by
  cases n with
  | mk k cs =>
    rw [Mirror.removeNodeFromMap]
    refine removeChildren_absent _ cs i ?_
    simp only [Mirror.has] at h
    have hnone : JsMap.get? m.idNodeMap i = none := by
      cases hq : JsMap.get? m.idNodeMap i with
      | none => rfl
      | some v => rw [hq] at h; simp at h
    simp only [Mirror.has]
    simp [JsMap.get?_del_none _ i _ hnone]

/-- Absence persists through `removeChildren`. -/
theorem removeChildren_absent (m : Mirror) (cs : List DNode) (i : Int)
    (h : m.has i = false) : (Mirror.removeChildren m cs).has i = false := by
  cases cs with
  | nil => exact h
  | cons c cs =>
    rw [Mirror.removeChildren]
    exact removeChildren_absent _ cs i (removeNodeFromMap_absent m c i h)
end

mutual
/-- After `removeNodeFromMap n`, no id of `n` or of any of its descendants
remains in `idNodeMap` (ids read in the pre-state, which is sound as the
meta side never changes). -/
theorem removeNodeFromMap_removes (m : Mirror) (n : DNode) :
    ∀ d ∈ n.descendants, (m.removeNodeFromMap n).has (m.getId (some d)) = false := by
  cases n with
  | mk k cs =>
    intro d hd
    rw [DNode.descendants] at hd
    rw [Mirror.removeNodeFromMap]
    rcases List.mem_cons.mp hd with h1 | h1
    · subst h1
      refine removeChildren_absent _ cs _ ?_
      simp [Mirror.has, JsMap.get?_del_self]
    · exact removeChildrenList_removes _ cs d h1

/-- The list form of `removeNodeFromMap_removes`. -/
theorem removeChildrenList_removes (m : Mirror) (cs : List DNode) :
    ∀ d ∈ DNode.descendantsList cs,
      (Mirror.removeChildren m cs).has (m.getId (some d)) = false := by
  cases cs with
  | nil => intro d hd; simp [DNode.descendantsList] at hd
  | cons c cs =>
    intro d hd
    rw [DNode.descendantsList] at hd
    rw [Mirror.removeChildren]
    rcases List.mem_append.mp hd with h1 | h1
    · exact removeChildren_absent _ cs _ (removeNodeFromMap_removes m c d h1)
    · have hmeta : (m.removeNodeFromMap c).nodeMetaMap = m.nodeMetaMap :=
        removeNodeFromMap_metaMap m c
      have := removeChildrenList_removes (m.removeNodeFromMap c) cs d h1
      rwa [getId_congr _ m hmeta] at this
end

/-- C8: `removeNodeFromMap(n)` removes the ids of `n` and of all its
descendants from the id-to-node map while leaving the node-to-meta map (and
hence `getMeta`) untouched; only `reset()` clears both maps; and `getId` of
`null`/`undefined` or of an unregistered node is `-1`. -/
theorem mirror_removeNode_spec (m : Mirror) (n : DNode) (x : DNode)
    (hx : m.getMeta x = none) :
    (m.removeNodeFromMap n).nodeMetaMap = m.nodeMetaMap
    ∧ (∀ y : DNode, (m.removeNodeFromMap n).getMeta y = m.getMeta y)
    ∧ (∀ d ∈ n.descendants,
        (m.removeNodeFromMap n).has (m.getId (some d)) = false)
    ∧ ((m.reset).idNodeMap = [] ∧ (m.reset).nodeMetaMap = [])
    ∧ m.getId none = -1
    ∧ m.getId (some x) = -1 := by
  refine ⟨removeNodeFromMap_metaMap m n, ?_, removeNodeFromMap_removes m n,
    ⟨rfl, rfl⟩, rfl, ?_⟩
  · intro y
    simp [Mirror.getMeta, removeNodeFromMap_metaMap m n]
  · simp [Mirror.getId, hx]

/-- Witness for C8: a two-node tree registered in a concrete mirror; the
extra node `⟨9, []⟩` was never registered. -/
theorem mirror_removeNode_spec_witness :
    (Mirror.getMeta
        { idNodeMap := [(10, 0), (11, 1)],
          nodeMetaMap := [(0, { id := 10, payload := 0 }),
                          (1, { id := 11, payload := 0 })] }
        (.mk 9 []) = none)
    ∧ ((Mirror.removeNodeFromMap
          { idNodeMap := [(10, 0), (11, 1)],
            nodeMetaMap := [(0, { id := 10, payload := 0 }),
                            (1, { id := 11, payload := 0 })] }
          (.mk 0 [.mk 1 []])).nodeMetaMap
        = [(0, { id := 10, payload := 0 }), (1, { id := 11, payload := 0 })]
      ∧ (∀ y : DNode,
          (Mirror.removeNodeFromMap
            { idNodeMap := [(10, 0), (11, 1)],
              nodeMetaMap := [(0, { id := 10, payload := 0 }),
                              (1, { id := 11, payload := 0 })] }
            (.mk 0 [.mk 1 []])).getMeta y
          = Mirror.getMeta
              { idNodeMap := [(10, 0), (11, 1)],
                nodeMetaMap := [(0, { id := 10, payload := 0 }),
                                (1, { id := 11, payload := 0 })] } y)
      ∧ (∀ d ∈ (DNode.mk 0 [.mk 1 []]).descendants,
          (Mirror.removeNodeFromMap
            { idNodeMap := [(10, 0), (11, 1)],
              nodeMetaMap := [(0, { id := 10, payload := 0 }),
                              (1, { id := 11, payload := 0 })] }
            (.mk 0 [.mk 1 []])).has
            (Mirror.getId
              { idNodeMap := [(10, 0), (11, 1)],
                nodeMetaMap := [(0, { id := 10, payload := 0 }),
                                (1, { id := 11, payload := 0 })] }
              (some d)) = false)
      ∧ ((Mirror.reset
            { idNodeMap := [(10, 0), (11, 1)],
              nodeMetaMap := [(0, { id := 10, payload := 0 }),
                              (1, { id := 11, payload := 0 })] }).idNodeMap = []
        ∧ (Mirror.reset
            { idNodeMap := [(10, 0), (11, 1)],
              nodeMetaMap := [(0, { id := 10, payload := 0 }),
                              (1, { id := 11, payload := 0 })] }).nodeMetaMap = [])
      ∧ Mirror.getId
          { idNodeMap := [(10, 0), (11, 1)],
            nodeMetaMap := [(0, { id := 10, payload := 0 }),
                            (1, { id := 11, payload := 0 })] } none = -1
      ∧ Mirror.getId
          { idNodeMap := [(10, 0), (11, 1)],
            nodeMetaMap := [(0, { id := 10, payload := 0 }),
                            (1, { id := 11, payload := 0 })] }
          (some (.mk 9 [])) = -1) :=
  ⟨by decide,
   mirror_removeNode_spec
     { idNodeMap := [(10, 0), (11, 1)],
       nodeMetaMap := [(0, { id := 10, payload := 0 }),
                       (1, { id := 11, payload := 0 })] }
     (.mk 0 [.mk 1 []]) (.mk 9 []) (by decide)⟩

/-! ## C5 — visibility batching -/

/-- The loop body of the change-recording phase only writes `buffer` and
`previousState`. -/
theorem recordChangeStep_fields (getId : Nat → Int) (acc : VMState)
    (p : Nat × VisibilityCheckEntry) :
    (recordChangeStep getId acc p).hasInitialized = acc.hasInitialized
    ∧ (recordChangeStep getId acc p).mode = acc.mode
    ∧ (recordChangeStep getId acc p).frozen = acc.frozen
    ∧ (recordChangeStep getId acc p).locked = acc.locked
    ∧ (recordChangeStep getId acc p).disabled = acc.disabled
    ∧ (recordChangeStep getId acc p).lastThrottleTime = acc.lastThrottleTime
    ∧ (recordChangeStep getId acc p).throttle = acc.throttle
    ∧ (recordChangeStep getId acc p).debounce = acc.debounce := by
  unfold recordChangeStep
  dsimp only
  split
  · split <;> simp
  · simp

/-- The fold of the loop body preserves the control fields. -/
theorem foldl_recordChangeStep_fields (getId : Nat → Int)
    (l : List (Nat × VisibilityCheckEntry)) (acc : VMState) :
    (l.foldl (recordChangeStep getId) acc).hasInitialized = acc.hasInitialized
    ∧ (l.foldl (recordChangeStep getId) acc).mode = acc.mode
    ∧ (l.foldl (recordChangeStep getId) acc).lastThrottleTime
        = acc.lastThrottleTime
    ∧ (l.foldl (recordChangeStep getId) acc).throttle = acc.throttle := by
  induction l generalizing acc with
  | nil => exact ⟨rfl, rfl, rfl, rfl⟩
  | cons p l ih =>
    have hstep := recordChangeStep_fields getId acc p
    have := ih (recordChangeStep getId acc p)
    simp only [List.foldl_cons]
    exact ⟨this.1.trans hstep.1, this.2.1.trans hstep.2.1,
      this.2.2.1.trans hstep.2.2.2.2.2.1,
      this.2.2.2.trans hstep.2.2.2.2.2.2.1⟩

/-- `recordChanges` preserves the control fields it does not write. -/
theorem recordChanges_fields (env : VisEnv) (getId : Nat → Int) (s : VMState) :
    (recordChanges env getId s).hasInitialized = s.hasInitialized
    ∧ (recordChanges env getId s).mode = s.mode := by
  unfold recordChanges
  have h := foldl_recordChangeStep_fields getId
    (computeVisibility env s.elements s.previousState
      { root := s.root, threshold := s.threshold,
        sensitivity := s.sensitivity, rootMargin := s.rootMargin }) s
  exact ⟨h.1, h.2.1⟩

/-- C5: on a flush pass with no suppression (not disabled, frozen or locked,
a non-empty observed set, past the first pass, `mode = 'none'`) and `k ≥ 1`
buffered changes, exactly one `VisibilityMutation` payload is emitted,
carrying exactly the `k` buffered `{id, isVisible, ratio}` tuples (one per
element key, last writer wins — `JsMap.set` semantics), `notifyActivity`
receives `k`, and the buffer is cleared; on the first pass after
initialization the buffer is cleared and nothing is emitted. -/
theorem visibility_flush_batch (env : VisEnv) (getId : Nat → Int) (now : ℚ)
    (tid : Nat) (s : VMState) (k : Nat)
    (hd : s.disabled = false) (hf : s.frozen = false) (hl : s.locked = false)
    (hi : s.hasInitialized = true) (hm : s.mode = VMode.none)
    (he : ¬ s.elements = [])
    (hk : JsMap.size (recordChanges env getId s).buffer = k)
    (hk1 : 1 ≤ k) :
    (flushPendingVisibilityMutations env getId now tid s).emitted
        = [JsMap.values (recordChanges env getId s).buffer]
    ∧ (JsMap.values (recordChanges env getId s).buffer).length = k
    ∧ (flushPendingVisibilityMutations env getId now tid s).notified = [k]
    ∧ (flushPendingVisibilityMutations env getId now tid s).state.buffer = []
    ∧ (∀ (b : List (Nat × VisibilityMutation)) (el : Nat)
         (v : VisibilityMutation),
        JsMap.get? (JsMap.set b el v) el = some v)
    ∧ (∀ (s' : VMState), s'.disabled = false → s'.frozen = false →
        s'.locked = false → ¬ s'.elements = [] →
        (recordChanges env getId s').hasInitialized = false →
        (flushPendingVisibilityMutations env getId now tid s').emitted = []
          ∧ (flushPendingVisibilityMutations env getId now tid s').notified = []
          ∧ (flushPendingVisibilityMutations env getId now tid s').state.buffer
              = []) := by
  have hlen : (s.elements.length == 0) = false := by
    simp [List.length_eq_zero, he]
  have hfields := recordChanges_fields env getId s
  have hsz : ¬ JsMap.size (recordChanges env getId s).buffer = 0 := by
    rw [hk]; omega
  have hmain : flushPendingVisibilityMutations env getId now tid s
      = { state := { recordChanges env getId s with buffer := [] },
          emitted := [JsMap.values (recordChanges env getId s).buffer],
          notified := [JsMap.size (recordChanges env getId s).buffer] } := by
    simp only [flushPendingVisibilityMutations]
    rw [if_neg (by simp [hd]), if_neg (by simp [hf, hl, hlen]),
      if_neg (by simp [hfields.1, hi])]
    rw [scheduleEmit, hfields.2, hm]
    show flushBuffer (recordChanges env getId s) = _
    rw [flushBuffer, if_neg hsz]
    rw [hfields.2, hm]
  refine ⟨by rw [hmain], ?_, by rw [hmain, hk], by rw [hmain], ?_, ?_⟩
  · rw [← hk]; simp [JsMap.values, JsMap.size]
  · intro b el v; exact JsMap.get?_set_self b el v
  · intro s' hd' hf' hl' he' hi'
    have hlen' : (s'.elements.length == 0) = false := by
      simp [List.length_eq_zero, he']
    rw [flushPendingVisibilityMutations, if_neg (by simp [hd']),
      if_neg (by simp [hf', hl', hlen'])]
    rw [if_pos (by simp [hi'])]
    exact ⟨rfl, rfl, rfl⟩

/-- The change-recording phase of the `sFlushW` fixture buffers exactly one
tuple (element 4 seen for the first time, collapsed, style-visible). -/
theorem recordChanges_sFlushW :
    JsMap.size (recordChanges envZeroW getIdW sFlushW).buffer = 1 := by
  simp [recordChanges, recordChangeStep, computeVisibility,
    computeVisibilityEntry, getRootRect, expandRootRect, parseRootMargin,
    marginPart, marginGetValue, mkDOMRect, emptyRect, computeIntersectionRect,
    computeIntersectionRatio, isStyleVisible, JsMap.get?, JsMap.set,
    JsMap.size, envZeroW, getIdW, sFlushW, styleW]

/-- Witness for C5: the `sFlushW` fixture flush emits exactly one payload
with the single buffered tuple. -/
theorem visibility_flush_batch_witness :
    JsMap.size (recordChanges envZeroW getIdW sFlushW).buffer = 1
    ∧ (flushPendingVisibilityMutations envZeroW getIdW 0 9 sFlushW).emitted
        = [JsMap.values (recordChanges envZeroW getIdW sFlushW).buffer]
    ∧ (flushPendingVisibilityMutations envZeroW getIdW 0 9 sFlushW).notified
        = [1] :=
  ⟨recordChanges_sFlushW,
   (visibility_flush_batch envZeroW getIdW 0 9 sFlushW 1 rfl rfl rfl rfl rfl
      (by simp [sFlushW]) recordChanges_sFlushW (by decide)).1,
   (visibility_flush_batch envZeroW getIdW 0 9 sFlushW 1 rfl rfl rfl rfl rfl
      (by simp [sFlushW]) recordChanges_sFlushW (by decide)).2.2.1⟩

/-! ## C7 — per-element visibility computation -/

/-- C7: for an element with no prior entry, the entry computed by
`computeVisibility` carries exactly the spec's ratio — intersection area of
the bounding rect with the `rootMargin`-expanded root divided by the element
area, rounded to two decimals, and 0 for a zero width or height — together
with `isStyleVisible` of the computed style, and
`isVisible = isStyleVisible ∧ ratio > threshold` (strict). -/
theorem computeVisibility_fresh (env : VisEnv)
    (prev : List (Nat × VisibilityCheckEntry)) (options : VisOptions)
    (el : Nat) (hold : JsMap.get? prev el = none)
    (hw : 0 ≤ (env.elem el).rect.width) (hh : 0 ≤ (env.elem el).rect.height) :
    JsMap.get? (computeVisibility env [el] prev options) el
      = some
        { target := el,
          isVisible := isStyleVisible (env.elem el).style
            && decide (specIntersectionRatio env options el > options.threshold),
          isStyleVisible := isStyleVisible (env.elem el).style,
          intersectionRatio := specIntersectionRatio env options el,
          intersectionRect :=
            if (env.elem el).rect.width = 0 ∨ (env.elem el).rect.height = 0
            then emptyRect
            else computeIntersectionRect (env.elem el).rect
              (expandedRootOf env options) } := by
  have hstep : computeVisibility env [el] prev options
      = JsMap.set []  el (computeVisibilityEntry env (expandedRootOf env options)
          options.threshold options.sensitivity prev el) := by
    simp [computeVisibility, expandedRootOf]
  rw [hstep, JsMap.get?_set_self]
  unfold computeVisibilityEntry
  rw [hold]
  by_cases hz : (env.elem el).rect.width = 0 ∨ (env.elem el).rect.height = 0
  · have hguard : ¬ ((env.elem el).rect.width > 0 ∧ (env.elem el).rect.height > 0) := by
      rcases hz with hz | hz <;> simp [hz]
    simp only [if_neg hguard, Option.isNone_none, Bool.true_or, if_pos]
    simp [specIntersectionRatio, hz]
  · push_neg at hz
    have hwpos : 0 < (env.elem el).rect.width := lt_of_le_of_ne hw (Ne.symm hz.1)
    have hhpos : 0 < (env.elem el).rect.height := lt_of_le_of_ne hh (Ne.symm hz.2)
    have hguard : (env.elem el).rect.width > 0 ∧ (env.elem el).rect.height > 0 :=
      ⟨hwpos, hhpos⟩
    have harea : (env.elem el).rect.width * (env.elem el).rect.height > 0 :=
      mul_pos hwpos hhpos
    have hratio : computeIntersectionRatio (env.elem el).rect
        (computeIntersectionRect (env.elem el).rect (expandedRootOf env options))
        = (computeIntersectionRect (env.elem el).rect
            (expandedRootOf env options)).width
          * (computeIntersectionRect (env.elem el).rect
              (expandedRootOf env options)).height
          / ((env.elem el).rect.width * (env.elem el).rect.height) := by
      simp [computeIntersectionRatio, harea]
    have hnz : ¬ ((env.elem el).rect.width = 0 ∨ (env.elem el).rect.height = 0) := by
      simp [hz.1, hz.2]
    simp only [if_pos hguard, Option.isNone_none, Bool.true_or, if_pos]
    simp [specIntersectionRatio, hnz, hratio]

/-- Witness for C7: the `envBoxW` fixture (a `10×10` element fully inside
the default viewport) under threshold 2. -/
theorem computeVisibility_fresh_witness :
    JsMap.get? ([] : List (Nat × VisibilityCheckEntry)) 0 = none
    ∧ (0:ℚ) ≤ (envBoxW.elem 0).rect.width
    ∧ (0:ℚ) ≤ (envBoxW.elem 0).rect.height
    ∧ JsMap.get? (computeVisibility envBoxW [0] [] optsStaleW) 0
      = some
        { target := 0,
          isVisible := isStyleVisible (envBoxW.elem 0).style
            && decide (specIntersectionRatio envBoxW optsStaleW 0
                > optsStaleW.threshold),
          isStyleVisible := isStyleVisible (envBoxW.elem 0).style,
          intersectionRatio := specIntersectionRatio envBoxW optsStaleW 0,
          intersectionRect :=
            if (envBoxW.elem 0).rect.width = 0 ∨ (envBoxW.elem 0).rect.height = 0
            then emptyRect
            else computeIntersectionRect (envBoxW.elem 0).rect
              (expandedRootOf envBoxW optsStaleW) } :=
  ⟨rfl, by norm_num [envBoxW, mkDOMRect], by norm_num [envBoxW, mkDOMRect],
   computeVisibility_fresh envBoxW [] optsStaleW 0 rfl
     (by norm_num [envBoxW, mkDOMRect]) (by norm_num [envBoxW, mkDOMRect])⟩

/-! ## C1 — sensitivity-only changes are dropped -/

/-- The fixture style is visible. -/
theorem styleW_visible : isStyleVisible styleW = true := by decide

/-- The rounded intersection ratio of the `envBoxW` element is 1. -/
theorem boxRatio_eq :
    (jsRound (computeIntersectionRatio (envBoxW.elem 0).rect
        (computeIntersectionRect (envBoxW.elem 0).rect
          (expandedRootOf envBoxW optsStaleW)) * 100) : ℚ) / 100 = 1 := by
  norm_num [envBoxW, mkDOMRect, expandedRootOf, getRootRect, optsStaleW,
    parseRootMargin, marginPart, marginGetValue, expandRootRect,
    computeIntersectionRect, computeIntersectionRatio, jsRound]

/-- Despite the ratio moving from 0 to 1, `computeVisibility`'s per-element
evaluation keeps the stale entry (no flip, and the sensitivity disjunct is
gated behind a flip). -/
theorem staleEntry_kept :
    computeVisibilityEntry envBoxW (expandedRootOf envBoxW optsStaleW) 2 0
      [(0, oldEntryW)] 0 = oldEntryW := by
  have hbox := boxRatio_eq
  unfold computeVisibilityEntry
  rw [show JsMap.get? [(0, oldEntryW)] 0 = some oldEntryW from rfl]
  dsimp only
  have hguard : (envBoxW.elem 0).rect.width > 0 ∧ (envBoxW.elem 0).rect.height > 0 := by
    norm_num [envBoxW, mkDOMRect]
  rw [if_pos hguard, if_pos hguard, hbox]
  norm_num [oldEntryW, styleW_visible]

/-- The full flush pass over `sStaleW` records nothing and emits nothing. -/
theorem staleFlush_eval :
    flushPendingVisibilityMutations envBoxW (fun _ => 5) 0 9 sStaleW
      = { state := { sStaleW with previousState := [(0, oldEntryW)] },
          emitted := [], notified := [] } := by
  have hstate : computeVisibility envBoxW sStaleW.elements sStaleW.previousState
      { root := sStaleW.root, threshold := sStaleW.threshold,
        sensitivity := sStaleW.sensitivity,
        rootMargin := sStaleW.rootMargin } = [(0, oldEntryW)] := by
    show computeVisibility envBoxW [0] [(0, oldEntryW)] optsStaleW = _
    rw [show computeVisibility envBoxW [0] [(0, oldEntryW)] optsStaleW
        = JsMap.set [] 0 (computeVisibilityEntry envBoxW
            (expandedRootOf envBoxW optsStaleW) 2 0 [(0, oldEntryW)] 0) from by
      simp [computeVisibility, expandedRootOf, optsStaleW]]
    rw [staleEntry_kept]
    rfl
  have hrec : recordChanges envBoxW (fun _ => 5) sStaleW
      = { sStaleW with previousState := [(0, oldEntryW)] } := by
    unfold recordChanges
    rw [hstate]
    dsimp only
    rw [show List.foldl (recordChangeStep (fun _ => 5)) sStaleW [(0, oldEntryW)]
        = recordChangeStep (fun _ => 5) sStaleW (0, oldEntryW) from rfl]
    unfold recordChangeStep
    norm_num [sStaleW, oldEntryW, JsMap.get?]
  rw [flushPendingVisibilityMutations]
  rw [if_neg (by simp [sStaleW]), if_neg (by simp [sStaleW])]
  rw [hrec]
  rw [if_neg (by simp [sStaleW])]
  rw [scheduleEmit]
  show flushBuffer _ = _
  rw [flushBuffer, if_pos (by simp [sStaleW, JsMap.size])]

/-- C1 (failing input): element 0 previously stored with ratio 0 and
`isVisible = false`; the fresh measurement yields rounded ratio 1 (a delta
of 1, far above the sensitivity 0) with `isVisible` still false.  The spec
requires a change to be recorded, but `computeVisibility`'s condition
`!old || flip || (flip && |Δ| > sensitivity)` keeps the stale entry, so the
flush buffers nothing, emits nothing and notifies nothing.  (The manager's
own `|Δratio| > sensitivity` re-check at visibility-manager.ts:114 is
thereby dead, and the sibling `VisibilityObserver` in the same repository
uses the intended `!prev || flip || |Δ| > sensitivity` condition.) -/
theorem visibility_ratio_only_change_dropped :
    ((jsRound (computeIntersectionRatio (envBoxW.elem 0).rect
        (computeIntersectionRect (envBoxW.elem 0).rect
          (expandedRootOf envBoxW optsStaleW)) * 100) : ℚ) / 100 = 1)
    ∧ oldEntryW.intersectionRatio = 0
    ∧ |(1 : ℚ) - 0| > sStaleW.sensitivity
    ∧ (isStyleVisible (envBoxW.elem 0).style
        && decide ((1 : ℚ) > sStaleW.threshold)) = oldEntryW.isVisible
    ∧ JsMap.get? (computeVisibility envBoxW [0] sStaleW.previousState
        { root := sStaleW.root, threshold := sStaleW.threshold,
          sensitivity := sStaleW.sensitivity,
          rootMargin := sStaleW.rootMargin }) 0
        = some oldEntryW
    ∧ (flushPendingVisibilityMutations envBoxW (fun _ => 5) 0 9 sStaleW).emitted
        = []
    ∧ (flushPendingVisibilityMutations envBoxW (fun _ => 5) 0 9
        sStaleW).notified = []
    ∧ (flushPendingVisibilityMutations envBoxW (fun _ => 5) 0 9
        sStaleW).state.buffer = [] := by
  refine ⟨boxRatio_eq, rfl, ?_, ?_, ?_, ?_, ?_, ?_⟩
  · norm_num [sStaleW]
  · norm_num [styleW_visible, envBoxW, sStaleW, oldEntryW]
  · show JsMap.get? (computeVisibility envBoxW [0] [(0, oldEntryW)]
        optsStaleW) 0 = some oldEntryW
    rw [show computeVisibility envBoxW [0] [(0, oldEntryW)] optsStaleW
        = JsMap.set [] 0 (computeVisibilityEntry envBoxW
            (expandedRootOf envBoxW optsStaleW) 2 0 [(0, oldEntryW)] 0) from by
      simp [computeVisibility, expandedRootOf, optsStaleW]]
    rw [staleEntry_kept]
    rfl
  · rw [staleFlush_eval]
  · rw [staleFlush_eval]
  · rw [staleFlush_eval]
    rfl

/-! ## C2 — checkout predicates and counter reset -/

/-- C2 (amended): whenever `wrappedEmit` on an incremental event produces a
`FullSnapshot` (necessarily beyond the first), one of the three checkout
predicates held at its emission; immediately afterwards the incremental
count is 0 and `lastFullSnapshotTimestamp` equals the snapshot's timestamp;
the visibility-change counter is reset exactly when the visibility predicate
was among the triggers (otherwise it is left as is). -/
theorem checkout_predicates_spec (opts : EmitOptions) (source : IncSource)
    (iaf : Bool) (t tMeta tFull : Int) (ok : Bool) (s : EmitState)
    (ts : Int) (chk : Bool)
    (h : ({ event := REvent.fullSnapshot, timestamp := ts,
            isCheckout := chk } : Emitted)
          ∈ (emitIncremental opts source iaf t tMeta tFull ok s).events) :
    (exceedCountP opts (s.incrementalSnapshotCount + 1)
      || exceedTimeP opts s.lastFullSnapshotTimestamp t
      || exceedVisibilityP opts s.recentVisibilityChanges) = true
    ∧ (emitIncremental opts source iaf t tMeta tFull ok
        s).state.incrementalSnapshotCount = 0
    ∧ (emitIncremental opts source iaf t tMeta tFull ok
        s).state.lastFullSnapshotTimestamp = some ts
    ∧ (exceedVisibilityP opts s.recentVisibilityChanges = true →
        (emitIncremental opts source iaf t tMeta tFull ok
          s).state.recentVisibilityChanges = 0) := by
  by_cases h1 : source = IncSource.mutation ∧ iaf = true
  · simp [emitIncremental, h1] at h
  · by_cases hP : (exceedCountP opts (s.incrementalSnapshotCount + 1)
        || exceedTimeP opts s.lastFullSnapshotTimestamp t
        || exceedVisibilityP opts s.recentVisibilityChanges) = true
    · by_cases hrec : opts.recordDOM = true
      · by_cases hok : ok = true
        · unfold emitIncremental at h ⊢
          dsimp only at h ⊢
          rw [if_neg h1, if_pos hP] at h ⊢
          unfold takeFullSnapshot at h ⊢
          simp only [hrec, hok, Bool.not_true] at h ⊢
          simp only [emitMeta, emitFullSnapshot] at h ⊢
          simp at h
          rcases h with ⟨hts, _⟩
          subst hts
          refine ⟨hP, ?_, ?_, ?_⟩ <;>
            by_cases hv : exceedVisibilityP opts s.recentVisibilityChanges
              = true <;>
            simp [hv]
        · simp only [emitIncremental] at h
          rw [if_neg h1, if_pos hP] at h
          simp [takeFullSnapshot, hrec, hok, emitMeta] at h
      · simp only [emitIncremental] at h
        rw [if_neg h1, if_pos hP] at h
        simp [takeFullSnapshot, hrec] at h
    · simp only [emitIncremental] at h
      rw [if_neg h1, if_neg hP] at h
      simp at h

/-- C2 counterexample to the claim as stated: with `checkoutEveryNth = 1`
and `checkoutEveryNvm = 5`, an incremental event arriving while 3 visibility
changes are accumulated triggers a count-based checkout; after the resulting
`FullSnapshot` the visibility-change counter is still 3, not 0. -/
theorem checkout_visibility_counter_not_reset :
    ({ event := REvent.fullSnapshot, timestamp := 12, isCheckout := true }
        : Emitted)
      ∈ (emitIncremental optsCntW .otherSource false 10 11 12 true
          sCntW).events
    ∧ (emitIncremental optsCntW .otherSource false 10 11 12 true
        sCntW).state.recentVisibilityChanges = 3 := by
  decide

/-- Witness for C2 at the fixture input: the membership hypothesis holds and
the theorem applies. -/
theorem checkout_predicates_spec_witness :
    (({ event := REvent.fullSnapshot, timestamp := 12, isCheckout := true }
        : Emitted)
      ∈ (emitIncremental optsCntW .otherSource false 10 11 12 true
          sCntW).events)
    ∧ ((exceedCountP optsCntW (sCntW.incrementalSnapshotCount + 1)
        || exceedTimeP optsCntW sCntW.lastFullSnapshotTimestamp 10
        || exceedVisibilityP optsCntW sCntW.recentVisibilityChanges) = true
      ∧ (emitIncremental optsCntW .otherSource false 10 11 12 true
          sCntW).state.incrementalSnapshotCount = 0
      ∧ (emitIncremental optsCntW .otherSource false 10 11 12 true
          sCntW).state.lastFullSnapshotTimestamp = some 12
      ∧ (exceedVisibilityP optsCntW sCntW.recentVisibilityChanges = true →
          (emitIncremental optsCntW .otherSource false 10 11 12 true
            sCntW).state.recentVisibilityChanges = 0)) :=
  ⟨by decide,
   checkout_predicates_spec optsCntW .otherSource false 10 11 12 true sCntW
     12 true (by decide)⟩

/-! ## C3 — stop handle -/

/-- C3 (amended): the stop handle is idempotent as a state transformation
(the second call changes nothing and emits nothing), turns `recording` off,
and cancels the pending animation frame (through the spec-modelled observer
teardown calling `VisibilityManager.reset()`); however the mirror is not
reset by stop (it is reset only at the start of the next `record()` call),
and the visibility manager's `debounceTimer` and emit `buffer` survive. -/
theorem stop_idempotent_spec (ts ts2 : Int) (s : RecState) :
    (stopHandle ts2 (stopHandle ts s).1).1 = (stopHandle ts s).1
    ∧ (stopHandle ts2 (stopHandle ts s).1).2 = []
    ∧ (stopHandle ts s).1.recording = false
    ∧ (s.vm.rafId.isSome = true → (stopHandle ts s).1.vm.rafPending = false)
    ∧ (stopHandle ts s).1.mirror = s.mirror
    ∧ (stopHandle ts s).1.vm.debounceTimer = s.vm.debounceTimer
    ∧ (stopHandle ts s).1.vm.buffer = s.vm.buffer := by
  refine ⟨?_, rfl, rfl, ?_, rfl, rfl, rfl⟩
  · simp only [stopHandle, observersTeardown, vmReset]
    cases hr : s.vm.rafId <;> simp [hr]
  · intro h
    simp [stopHandle, observersTeardown, vmReset, h]

/-- C3 counterexample to the claim as stated: stopping `recStopW` leaves the
debounce timer armed and the mirror non-reset, and the armed timer firing
afterwards still emits one `VisibilityMutation` payload. -/
theorem stop_leftovers_counterexample :
    (stopHandle 0 recStopW).1.vm.debounceTimer = some 7
    ∧ ¬ (stopHandle 0 recStopW).1.mirror.idNodeMap = []
    ∧ ¬ (stopHandle 0 recStopW).1.mirror
        = Mirror.reset (stopHandle 0 recStopW).1.mirror
    ∧ (debounceFire (stopHandle 0 recStopW).1.vm).emitted = [[vmutW]] := by
  refine ⟨rfl, by decide, ?_, ?_⟩
  · intro hEq
    have : (Mirror.mk [(1, 0)]
        [(0, { id := 1, payload := 0 })]).idNodeMap = [] :=
      congrArg Mirror.idNodeMap hEq
    simp at this
  · simp [debounceFire, flushBuffer, stopHandle, observersTeardown, vmReset,
      recStopW, vmPendingW, JsMap.size, JsMap.values]

/-- Witness for C3 (amended) at the `recStopW` fixture, whose rAF handle is
set. -/
theorem stop_idempotent_spec_witness :
    recStopW.vm.rafId.isSome = true
    ∧ (stopHandle 1 recStopW).1.vm.rafPending = false
    ∧ (stopHandle 1 (stopHandle 0 recStopW).1).1 = (stopHandle 0 recStopW).1 :=
  ⟨rfl, (stop_idempotent_spec 1 9 recStopW).2.2.2.1 rfl,
   (stop_idempotent_spec 0 1 recStopW).1⟩

end Rrweb
